import Mathlib

/-!
Shallow embedding of the client-side recording and upload lifecycle of the
speech-app repository.

The embedded code is `frontend/src/components/AudioRecorder.jsx` (the React
component holding the recorder state machine: `startRecording`,
`stopRecording`, `uploadAndTranscribe`, `discardRecording`, the
`ondataavailable` / `onstop` MediaRecorder callbacks and the record-button
dispatch) and `App.jsx` (`handleTranscriptionComplete`, which prepends the
new transcript to the local list).

React state hooks and refs become fields of `RecorderState`; the async
browser effects (`getUserMedia`, `fetch`) become explicit outcome parameters
(`MicOutcome`, `UploadOutcome`); network requests and the completion
callback become an emitted event list, so that "performs no network call"
is the event list being empty.  Blobs are byte lists; a `Blob` built from a
chunk list is the flattening (concatenation) of the chunks.
-/

namespace SpeechApp

/-- A chunk of encoded audio bytes, as delivered by `ondataavailable`. -/
abbrev Chunk := List Nat

/-- The state of the `AudioRecorder` component: the five `useState` hooks
(`isRecording`, `isProcessing`, `error`, `recordedBlob`,
`recordingDuration`) and the refs (`mediaRecorder`, `audioChunks`,
`recordingTimer`), plus whether the microphone stream is held.
`mediaRecorder = some b` models a MediaRecorder object whose state is
active (`b = true`) or inactive (`b = false`); `none` models a null ref. -/
structure RecorderState where
  isRecording : Bool
  isProcessing : Bool
  error : Option String
  recordedBlob : Option (List Nat)
  recordingDuration : Nat
  mediaRecorder : Option Bool
  audioChunks : List Chunk
  timerActive : Bool
  micActive : Bool
deriving DecidableEq, Repr

/-- The initial component state: all `useState` initial values and null refs. -/
def initialState : RecorderState :=
  { isRecording := false
    isProcessing := false
    error := none
    recordedBlob := none
    recordingDuration := 0
    mediaRecorder := none
    audioChunks := []
    timerActive := false
    micActive := false }

/-- Outcome of the `navigator.mediaDevices.getUserMedia` call in
`startRecording`: granted, rejected with `NotAllowedError`, rejected with
`NotFoundError`, or rejected with some other error message. -/
inductive MicOutcome where
  | granted
  | notAllowed
  | notFound
  | otherError (msg : String)
deriving DecidableEq, Repr

/-- Error message set when `getUserMedia` rejects with `NotAllowedError`. -/
def micDeniedMsg : String :=
  "Microphone access denied. Please allow microphone access and try again."

/-- Error message set when `getUserMedia` rejects with `NotFoundError`. -/
def micNotFoundMsg : String :=
  "No microphone found. Please connect a microphone and try again."

/-- `startRecording` from `AudioRecorder.jsx`: on a granted microphone it
clears `audioChunks`, `recordedBlob` and `recordingDuration`, creates a new
active MediaRecorder, starts it, sets `isRecording`, and starts the duration
timer.  On a rejected `getUserMedia` it only sets the error message.  The
function performs no `isRecording` guard of its own. -/
def startRecording (s : RecorderState) (mic : MicOutcome) : RecorderState :=
  match mic with
  | .granted =>
      { s with
        audioChunks := []
        recordedBlob := none
        recordingDuration := 0
        mediaRecorder := some true
        isRecording := true
        timerActive := true
        micActive := true }
  | .notAllowed =>
      { s with error := some micDeniedMsg }
  | .notFound =>
      { s with error := some micNotFoundMsg }
  | .otherError msg =>
      { s with error := some ("Failed to start recording: " ++ msg) }

/-- The `ondataavailable` handler installed by `startRecording`: a delivered
chunk is appended to `audioChunks` when `event.data.size > 0`, otherwise
ignored. -/
def onDataAvailable (s : RecorderState) (c : Chunk) : RecorderState :=
  if 0 < c.length then { s with audioChunks := s.audioChunks ++ [c] } else s

/-- `stopRecording` from `AudioRecorder.jsx`: when the MediaRecorder exists
and its state is not inactive, `stop()` is called, whose `onstop` handler
builds one Blob from the accumulated chunks, stores it in `recordedBlob`,
stops the stream tracks and clears the timer; then `isRecording` is set
false unconditionally. -/
def stopRecording (s : RecorderState) : RecorderState :=
  let s1 :=
    if s.mediaRecorder = some true then
      { s with
        recordedBlob := some s.audioChunks.flatten
        mediaRecorder := some false
        timerActive := false
        micActive := false }
    else s
  { s1 with isRecording := false }

/-- The record button rendered while `recordedBlob` is null: its `onClick`
is `stopRecording` when `isRecording` and `startRecording` otherwise. -/
def recordButtonClick (s : RecorderState) (mic : MicOutcome) : RecorderState :=
  if s.isRecording then stopRecording s else startRecording s mic

/-- One tick of the `setInterval` duration timer started by
`startRecording`: increments `recordingDuration` once per second while the
timer is live. -/
def timerTick (s : RecorderState) : RecorderState :=
  if s.timerActive then { s with recordingDuration := s.recordingDuration + 1 } else s

/-- The parsed JSON body of a successful `/upload-audio` response, as read
by the component (`result.transcript_id`, `result.text`, `result.status`). -/
structure TranscriptResult where
  transcript_id : Nat
  text : Option String
  status : String
deriving DecidableEq, Repr

/-- The multipart payload built by `uploadAndTranscribe`: the recorded blob
wrapped in a `File` with the fixed filename and MIME type. -/
structure UploadPayload where
  bytes : List Nat
  filename : String
  mimeType : String
deriving DecidableEq, Repr

/-- Externally visible effects of the component: an HTTP upload request to
the gateway, and an invocation of the `onTranscriptionComplete` callback. -/
inductive UploadEvent where
  | request (p : UploadPayload)
  | transcriptionComplete (r : TranscriptResult)
deriving DecidableEq, Repr

/-- Outcome of the `fetch` to `/upload-audio`:
`transportError m` — the fetch promise rejects with message `m`;
`httpFailure st stx body` — a response with `ok = false`, status `st`,
statusText `stx`, where `body = none` means `response.json()` rejected,
`body = some d` means it parsed with `detail` field `d` (`none` for an
absent or null field);
`okParseError m` — `ok = true` but `response.json()` rejects with `m`;
`success r` — `ok = true` with parsed body `r`. -/
inductive UploadOutcome where
  | transportError (msg : String)
  | httpFailure (status : Nat) (statusText : String) (body : Option (Option String))
  | okParseError (msg : String)
  | success (result : TranscriptResult)
deriving DecidableEq, Repr

/-- JavaScript `msg.includes(sub)`: substring test on the character lists. -/
def strIncludes (msg sub : String) : Bool :=
  decide (sub.data <:+: msg.data)

/-- The error message thrown for a non-ok response:
`errorData.detail || "HTTP status: statusText"` where `errorData` is the
parsed body, or `{detail: "Unknown error occurred"}` when parsing failed.
An empty-string `detail` is falsy in JavaScript, so it also falls through
to the HTTP fallback. -/
def failureMessage (status : Nat) (statusText : String)
    (body : Option (Option String)) : String :=
  match body with
  | none => "Unknown error occurred"
  | some none => "HTTP " ++ toString status ++ ": " ++ statusText
  | some (some detail) =>
      if detail = "" then "HTTP " ++ toString status ++ ": " ++ statusText else detail

/-- The user-facing connectivity-failure string. -/
def cannotConnectMsg : String :=
  "Cannot connect to server. Please make sure the backend is running."

/-- The user-facing invalid-audio-format string. -/
def invalidFormatMsg : String :=
  "Invalid audio format. Please try recording again."

/-- The user-facing provider-failure string. -/
def deepgramFailedMsg : String :=
  "Deepgram transcription failed. Please check your API key and account credits."

/-- The client-local message set when upload is attempted with no buffered
blob. -/
def noRecordingMsg : String := "No recording available to upload"

/-- The error classification in the `catch` block of `uploadAndTranscribe`:
the thrown message is matched (in order) against the markers
"Failed to fetch", "File must be an audio file", "Transcription failed",
and otherwise surfaced behind the generic prefixed fallback. -/
def classifyError (msg : String) : String :=
  if strIncludes msg "Failed to fetch" then cannotConnectMsg
  else if strIncludes msg "File must be an audio file" then invalidFormatMsg
  else if strIncludes msg "Transcription failed" then deepgramFailedMsg
  else "Transcription failed: " ++ msg

/-- The message reaching the `catch` block for each failing outcome. -/
def errMsgOfOutcome : UploadOutcome → String
  | .transportError m => m
  | .httpFailure st stx body => failureMessage st stx body
  | .okParseError m => m
  | .success _ => ""

/-- Whether an outcome takes the `catch` path of `uploadAndTranscribe`. -/
def isFailureOutcome : UploadOutcome → Bool
  | .success _ => false
  | _ => true

/-- The state right after `setIsProcessing(true); setError(null)` at the
top of the try block of `uploadAndTranscribe`. -/
def uploadBegin (s : RecorderState) : RecorderState :=
  { s with isProcessing := true, error := none }

/-- The rest of `uploadAndTranscribe` after the request is sent, started
from the state `uploadBegin` produced: on success the callback is invoked
(when the `onTranscriptionComplete` prop is present) and the blob and
duration are cleared; on any thrown error the classified message is set;
the `finally` clause resets `isProcessing` on every path. -/
def uploadSettle (s1 : RecorderState) (b : List Nat) (o : UploadOutcome)
    (hasCallback : Bool) : RecorderState × List UploadEvent :=
  let req := UploadEvent.request ⟨b, "recording.webm", "audio/webm"⟩
  match o with
  | .success r =>
      ({ s1 with recordedBlob := none, recordingDuration := 0, isProcessing := false },
        if hasCallback then [req, UploadEvent.transcriptionComplete r] else [req])
  | .transportError m =>
      ({ s1 with error := some (classifyError m), isProcessing := false }, [req])
  | .httpFailure st stx body =>
      ({ s1 with error := some (classifyError (failureMessage st stx body)), isProcessing := false }, [req])
  | .okParseError m =>
      ({ s1 with error := some (classifyError m), isProcessing := false }, [req])

/-- `uploadAndTranscribe` from `AudioRecorder.jsx`.  A null `recordedBlob`
(`!recordedBlob` is true exactly for null; a Blob object, even of size 0,
is truthy) sets the no-recording error and returns before any request.
Otherwise the processing flag goes up, one request carrying the blob is
sent, and the outcome is settled as in `uploadSettle`. -/
def uploadAndTranscribe (s : RecorderState) (o : UploadOutcome)
    (hasCallback : Bool) : RecorderState × List UploadEvent :=
  match s.recordedBlob with
  | none => ({ s with error := some noRecordingMsg }, [])
  | some b => uploadSettle (uploadBegin s) b o hasCallback

/-- `discardRecording` from `AudioRecorder.jsx`: clears the blob, the
duration and the error message; its body contains no fetch, so it emits no
event. -/
def discardRecording (s : RecorderState) : RecorderState × List UploadEvent :=
  ({ s with recordedBlob := none, recordingDuration := 0, error := none }, [])

/-- A transcript record as kept in the `transcripts` list of `App.jsx`. -/
structure Transcript where
  id : Nat
  text : Option String
  status : String
  created_at : String
  audio_url : Option String
deriving DecidableEq, Repr

/-- The record `handleTranscriptionComplete` builds from an upload result:
the server-assigned id, text and status, the current time, and a null
audio URL. -/
def mkNewTranscript (r : TranscriptResult) (now : String) : Transcript :=
  { id := r.transcript_id
    text := r.text
    status := r.status
    created_at := now
    audio_url := none }

/-- `handleTranscriptionComplete` from `App.jsx`:
`setTranscripts(prev => [newTranscript, ...prev])` — the new record is
placed at the front of the list, which is rendered top-down. -/
def handleTranscriptionComplete (ts : List Transcript) (r : TranscriptResult)
    (now : String) : List Transcript :=
  mkNewTranscript r now :: ts

/-! ### Example states used by witnesses and counterexamples -/

/-- A state in the middle of a capture session: two chunks accumulated,
recorder active, timer running. -/
def exRecording : RecorderState :=
  { isRecording := true
    isProcessing := false
    error := none
    recordedBlob := none
    recordingDuration := 2
    mediaRecorder := some true
    audioChunks := [[1, 2], [3]]
    timerActive := true
    micActive := true }

/-- A stopped state holding a finalized non-empty blob. -/
def exStopped : RecorderState :=
  { isRecording := false
    isProcessing := false
    error := none
    recordedBlob := some [1, 2, 3]
    recordingDuration := 3
    mediaRecorder := some false
    audioChunks := [[1, 2], [3]]
    timerActive := false
    micActive := false }

/-- A stopped state in which `onstop` fired with no accumulated chunks: the
`recordedBlob` is a present but empty (size 0) blob. -/
def exEmptyBlob : RecorderState :=
  { initialState with recordedBlob := some [], mediaRecorder := some false }

/-! ### Helper lemmas -/

/-- Folding the `ondataavailable` handler over a delivery sequence only
appends to `audioChunks` (keeping exactly the chunks of positive size) and
touches no other field. -/
theorem audioChunks_foldl (cs : List Chunk) (s : RecorderState) :
    cs.foldl onDataAvailable s =
      { s with audioChunks :=
          s.audioChunks ++ cs.filter (fun c => decide (0 < c.length)) } := by
  induction cs generalizing s with
  | nil => simp
  | cons c cs ih =>
      by_cases h : 0 < c.length
      · simp [List.foldl_cons, onDataAvailable, h, ih, List.filter_cons]
      · simp [List.foldl_cons, onDataAvailable, h, ih, List.filter_cons]

/-- Dropping the empty chunks does not change the concatenated bytes. -/
theorem flatten_filter_pos (cs : List Chunk) :
    (cs.filter (fun c => decide (0 < c.length))).flatten = cs.flatten := by
  induction cs with
  | nil => rfl
  | cons c cs ih =>
      by_cases h : 0 < c.length
      · simp [List.filter_cons, h, ih]
      · have hc : c = [] := by
          cases c with
          | nil => rfl
          | cons a t => simp at h
        subst hc
        simp [List.filter_cons, ih]

/-- The classification in the `catch` block lands in exactly one of the
four branches, determined by the first matching marker. -/
theorem classifyError_cases (msg : String) :
    (strIncludes msg "Failed to fetch" = true ∧
        classifyError msg = cannotConnectMsg) ∨
    (strIncludes msg "Failed to fetch" = false ∧
        strIncludes msg "File must be an audio file" = true ∧
        classifyError msg = invalidFormatMsg) ∨
    (strIncludes msg "Failed to fetch" = false ∧
        strIncludes msg "File must be an audio file" = false ∧
        strIncludes msg "Transcription failed" = true ∧
        classifyError msg = deepgramFailedMsg) ∨
    (strIncludes msg "Failed to fetch" = false ∧
        strIncludes msg "File must be an audio file" = false ∧
        strIncludes msg "Transcription failed" = false ∧
        classifyError msg = "Transcription failed: " ++ msg) := by
  by_cases h1 : strIncludes msg "Failed to fetch"
  · exact Or.inl ⟨h1, by simp [classifyError, h1]⟩
  · by_cases h2 : strIncludes msg "File must be an audio file"
    · refine Or.inr (Or.inl ⟨?_, h2, by simp [classifyError, h1, h2]⟩)
      simpa using h1
    · by_cases h3 : strIncludes msg "Transcription failed"
      · refine Or.inr (Or.inr (Or.inl ⟨?_, ?_, h3, by simp [classifyError, h1, h2, h3]⟩))
        · simpa using h1
        · simpa using h2
      · refine Or.inr (Or.inr (Or.inr ⟨?_, ?_, ?_, by simp [classifyError, h1, h2, h3]⟩))
        · simpa using h1
        · simpa using h2
        · simpa using h3

/-! ### Claim theorems -/

/-- Claim C1, counterexample: in a state with an active session
(`isRecording = true`, two chunks accumulated), calling `startRecording`
with a granted microphone is not rejected — it empties the accumulated
chunk buffer, so the in-progress capture is altered. -/
theorem start_while_recording_alters_capture :
    exRecording.isRecording = true ∧
    (startRecording exRecording .granted).audioChunks ≠ exRecording.audioChunks := by
  decide

/-- Claim C1, amended: `startRecording` performs no is-recording guard —
invoked while a session is active, a granted microphone discards the
in-progress capture (chunk buffer emptied, blob cleared, duration reset)
and begins a fresh active session; the single-active-session property is
enforced by the UI, whose record button dispatches `stopRecording` instead
of `startRecording` while `isRecording` is true. -/
theorem start_unguarded_ui_dispatches_stop (s : RecorderState) (mic : MicOutcome)
    (h : s.isRecording = true) :
    (startRecording s .granted).audioChunks = [] ∧
    (startRecording s .granted).recordedBlob = none ∧
    (startRecording s .granted).recordingDuration = 0 ∧
    (startRecording s .granted).isRecording = true ∧
    (startRecording s .granted).mediaRecorder = some true ∧
    recordButtonClick s mic = stopRecording s := by
  refine ⟨rfl, rfl, rfl, rfl, rfl, ?_⟩
  simp [recordButtonClick, h]

/-- Claim C1 witness: the amended statement at the concrete recording
state `exRecording`. -/
theorem start_unguarded_ui_dispatches_stop_witness :
    exRecording.isRecording = true ∧
    ((startRecording exRecording .granted).audioChunks = [] ∧
     (startRecording exRecording .granted).recordedBlob = none ∧
     (startRecording exRecording .granted).recordingDuration = 0 ∧
     (startRecording exRecording .granted).isRecording = true ∧
     (startRecording exRecording .granted).mediaRecorder = some true ∧
     recordButtonClick exRecording .granted = stopRecording exRecording) :=
  ⟨rfl, start_unguarded_ui_dispatches_stop exRecording .granted rfl⟩

/-- Claim C2, counterexample: `!recordedBlob` is true only for a null
blob; a present but empty (size 0) blob is truthy, so in `exEmptyBlob` the
upload is not rejected with `NoRecording` — it issues a network request. -/
theorem upload_empty_blob_sends_request :
    exEmptyBlob.recordedBlob = some [] ∧
    (uploadAndTranscribe exEmptyBlob (.transportError "x") true).2 ≠ [] ∧
    (uploadAndTranscribe exEmptyBlob (.transportError "x") true).1.error ≠
      some noRecordingMsg := by
  decide

/-- Claim C2, amended: when the buffered blob is absent (null), `upload()`
fails with the `NoRecording` error, changes nothing else, and performs no
network request; in particular `discard()` followed immediately by
`upload()` fails with `NoRecording` and performs no request.  (A present
but empty blob is not rejected.) -/
theorem upload_without_blob_fails_no_request (s : RecorderState)
    (o : UploadOutcome) (cb : Bool) (h : s.recordedBlob = none) :
    (uploadAndTranscribe s o cb).1 = { s with error := some noRecordingMsg } ∧
    (uploadAndTranscribe s o cb).2 = [] ∧
    (uploadAndTranscribe (discardRecording s).1 o cb).1.error = some noRecordingMsg ∧
    (uploadAndTranscribe (discardRecording s).1 o cb).2 = [] := by
  refine ⟨?_, ?_, ?_, ?_⟩ <;>
    simp [uploadAndTranscribe, discardRecording, h]

/-- Claim C2 witness: the amended statement at the initial state, where no
blob is buffered. -/
theorem upload_without_blob_fails_no_request_witness :
    initialState.recordedBlob = none ∧
    ((uploadAndTranscribe initialState (.success ⟨1, some "hi", "completed"⟩) true).1 =
        { initialState with error := some noRecordingMsg } ∧
     (uploadAndTranscribe initialState (.success ⟨1, some "hi", "completed"⟩) true).2 = [] ∧
     (uploadAndTranscribe (discardRecording initialState).1
        (.success ⟨1, some "hi", "completed"⟩) true).1.error = some noRecordingMsg ∧
     (uploadAndTranscribe (discardRecording initialState).1
        (.success ⟨1, some "hi", "completed"⟩) true).2 = []) :=
  ⟨rfl, upload_without_blob_fails_no_request initialState
    (.success ⟨1, some "hi", "completed"⟩) true rfl⟩

/-- Claim C6: `discardRecording` clears the blob, the duration (and the
error message), leaves every other field unchanged, and emits no network
request. -/
theorem discard_clears_buffer_no_network (s : RecorderState) :
    (discardRecording s).1.recordedBlob = none ∧
    (discardRecording s).1.recordingDuration = 0 ∧
    (discardRecording s).1.error = none ∧
    (discardRecording s).1.isRecording = s.isRecording ∧
    (discardRecording s).1.isProcessing = s.isProcessing ∧
    (discardRecording s).1.audioChunks = s.audioChunks ∧
    (discardRecording s).1.mediaRecorder = s.mediaRecorder ∧
    (discardRecording s).1.timerActive = s.timerActive ∧
    (discardRecording s).1.micActive = s.micActive ∧
    (discardRecording s).2 = [] := by
  simp [discardRecording]

/-- Claim C9: every successful `startRecording` call first discards any
previously buffered recording — the chunk buffer is emptied, the blob
cleared and the duration reset — whatever the prior state, and then begins
the new session. -/
theorem start_discards_previous_recording (s : RecorderState) :
    (startRecording s .granted).audioChunks = [] ∧
    (startRecording s .granted).recordedBlob = none ∧
    (startRecording s .granted).recordingDuration = 0 ∧
    (startRecording s .granted).isRecording = true ∧
    (startRecording s .granted).mediaRecorder = some true ∧
    (startRecording s .granted).timerActive = true := by
  exact ⟨rfl, rfl, rfl, rfl, rfl, rfl⟩

/-- Claim C3: every failing upload (transport error, non-success status,
or a body-parse failure on a success status) surfaces a classified error
message and leaves the buffered blob and the recorded duration unchanged,
so the recording stays available for a retry. -/
theorem upload_failure_preserves_recording (s : RecorderState) (o : UploadOutcome)
    (cb : Bool) (b : List Nat) (hb : s.recordedBlob = some b)
    (hf : isFailureOutcome o = true) :
    (uploadAndTranscribe s o cb).1.recordedBlob = s.recordedBlob ∧
    (uploadAndTranscribe s o cb).1.recordingDuration = s.recordingDuration ∧
    (uploadAndTranscribe s o cb).1.error =
      some (classifyError (errMsgOfOutcome o)) := by
  cases o with
  | success r => simp [isFailureOutcome] at hf
  | transportError m =>
      simp [uploadAndTranscribe, hb, uploadSettle, uploadBegin, errMsgOfOutcome]
  | httpFailure st stx body =>
      simp [uploadAndTranscribe, hb, uploadSettle, uploadBegin, errMsgOfOutcome]
  | okParseError m =>
      simp [uploadAndTranscribe, hb, uploadSettle, uploadBegin, errMsgOfOutcome]

/-- Claim C3 witness: a transport failure at the stopped state keeps the
blob and duration and surfaces the connectivity message. -/
theorem upload_failure_preserves_recording_witness :
    exStopped.recordedBlob = some [1, 2, 3] ∧
    isFailureOutcome (.transportError "Failed to fetch") = true ∧
    ((uploadAndTranscribe exStopped (.transportError "Failed to fetch") true).1.recordedBlob =
        exStopped.recordedBlob ∧
     (uploadAndTranscribe exStopped (.transportError "Failed to fetch") true).1.recordingDuration =
        exStopped.recordingDuration ∧
     (uploadAndTranscribe exStopped (.transportError "Failed to fetch") true).1.error =
        some (classifyError (errMsgOfOutcome (.transportError "Failed to fetch")))) :=
  ⟨rfl, rfl, upload_failure_preserves_recording exStopped
    (.transportError "Failed to fetch") true [1, 2, 3] rfl rfl⟩

/-- Claim C4: an upload that receives a success response emits exactly the
request (with the fixed filename and MIME type) followed by the completion
callback carrying the parsed body, and afterwards the buffered blob is
cleared and the duration reset to zero. -/
theorem upload_success_forwards_and_clears (s : RecorderState)
    (r : TranscriptResult) (b : List Nat) (hb : s.recordedBlob = some b) :
    (uploadAndTranscribe s (.success r) true).2 =
      [UploadEvent.request ⟨b, "recording.webm", "audio/webm"⟩,
       UploadEvent.transcriptionComplete r] ∧
    (uploadAndTranscribe s (.success r) true).1.recordedBlob = none ∧
    (uploadAndTranscribe s (.success r) true).1.recordingDuration = 0 ∧
    (uploadAndTranscribe s (.success r) true).1.error = none := by
  simp [uploadAndTranscribe, hb, uploadSettle, uploadBegin]

/-- Claim C4 witness: the success path at the stopped state with a
concrete parsed result. -/
theorem upload_success_forwards_and_clears_witness :
    exStopped.recordedBlob = some [1, 2, 3] ∧
    ((uploadAndTranscribe exStopped (.success ⟨7, some "hello", "completed"⟩) true).2 =
      [UploadEvent.request ⟨[1, 2, 3], "recording.webm", "audio/webm"⟩,
       UploadEvent.transcriptionComplete ⟨7, some "hello", "completed"⟩] ∧
     (uploadAndTranscribe exStopped (.success ⟨7, some "hello", "completed"⟩) true).1.recordedBlob = none ∧
     (uploadAndTranscribe exStopped (.success ⟨7, some "hello", "completed"⟩) true).1.recordingDuration = 0 ∧
     (uploadAndTranscribe exStopped (.success ⟨7, some "hello", "completed"⟩) true).1.error = none) :=
  ⟨rfl, upload_success_forwards_and_clears exStopped
    ⟨7, some "hello", "completed"⟩ [1, 2, 3] rfl⟩

/-- Claim C5: each `ondataavailable` delivery only extends the chunk
buffer (append-only order preserved); a session started by `startRecording`
and finalized by `stopRecording` yields a blob equal to the concatenation
of the delivered chunks in arrival order; and `stopRecording` on a state
that is not recording (no active MediaRecorder) changes nothing. -/
theorem chunks_append_only_stop_flattens (s t : RecorderState) (c : Chunk)
    (cs : List Chunk) (h1 : t.isRecording = false)
    (h2 : t.mediaRecorder ≠ some true) :
    s.audioChunks <+: (onDataAvailable s c).audioChunks ∧
    (stopRecording (cs.foldl onDataAvailable (startRecording s .granted))).recordedBlob =
      some cs.flatten ∧
    stopRecording t = t := by
  refine ⟨?_, ?_, ?_⟩
  · unfold onDataAvailable
    split
    · exact ⟨[c], rfl⟩
    · exact ⟨[], List.append_nil _⟩
  · rw [audioChunks_foldl]
    simp [startRecording, stopRecording, flatten_filter_pos]
  · simp only [stopRecording, if_neg h2]
    rw [← h1]

/-- Claim C5 witness: a three-delivery session (one empty delivery, which
contributes no bytes) concatenates in order, and `stopRecording` at the
already-stopped state is the identity. -/
theorem chunks_append_only_stop_flattens_witness :
    exStopped.isRecording = false ∧
    exStopped.mediaRecorder ≠ some true ∧
    (initialState.audioChunks <+: (onDataAvailable initialState [5]).audioChunks ∧
     (stopRecording ([[1, 2], [], [3]].foldl onDataAvailable
        (startRecording initialState .granted))).recordedBlob =
        some ([[1, 2], [], [3]] : List Chunk).flatten ∧
     stopRecording exStopped = exStopped) :=
  ⟨rfl, by decide, chunks_append_only_stop_flattens initialState exStopped [5]
    [[1, 2], [], [3]] rfl (by decide)⟩

/-- Claim C7: every failing upload surfaces the gateway/transport message
classified into exactly one of the fixed user-facing strings — the
connectivity message, the invalid-format message, the provider-failure
message, or the generic fallback — selected by the first matching marker,
with the later markers known not to match in each later branch. -/
theorem upload_failure_classified (s : RecorderState) (o : UploadOutcome)
    (cb : Bool) (b : List Nat) (hb : s.recordedBlob = some b)
    (hf : isFailureOutcome o = true) :
    (uploadAndTranscribe s o cb).1.error =
      some (classifyError (errMsgOfOutcome o)) ∧
    ((strIncludes (errMsgOfOutcome o) "Failed to fetch" = true ∧
        classifyError (errMsgOfOutcome o) = cannotConnectMsg) ∨
     (strIncludes (errMsgOfOutcome o) "Failed to fetch" = false ∧
        strIncludes (errMsgOfOutcome o) "File must be an audio file" = true ∧
        classifyError (errMsgOfOutcome o) = invalidFormatMsg) ∨
     (strIncludes (errMsgOfOutcome o) "Failed to fetch" = false ∧
        strIncludes (errMsgOfOutcome o) "File must be an audio file" = false ∧
        strIncludes (errMsgOfOutcome o) "Transcription failed" = true ∧
        classifyError (errMsgOfOutcome o) = deepgramFailedMsg) ∨
     (strIncludes (errMsgOfOutcome o) "Failed to fetch" = false ∧
        strIncludes (errMsgOfOutcome o) "File must be an audio file" = false ∧
        strIncludes (errMsgOfOutcome o) "Transcription failed" = false ∧
        classifyError (errMsgOfOutcome o) =
          "Transcription failed: " ++ errMsgOfOutcome o)) := by
  refine ⟨?_, classifyError_cases (errMsgOfOutcome o)⟩
  cases o with
  | success r => simp [isFailureOutcome] at hf
  | transportError m =>
      simp [uploadAndTranscribe, hb, uploadSettle, uploadBegin, errMsgOfOutcome]
  | httpFailure st stx body =>
      simp [uploadAndTranscribe, hb, uploadSettle, uploadBegin, errMsgOfOutcome]
  | okParseError m =>
      simp [uploadAndTranscribe, hb, uploadSettle, uploadBegin, errMsgOfOutcome]

/-- Claim C7 witness: a 400 response whose `detail` is the gateway
invalid-format message classifies into the invalid-format user string. -/
theorem upload_failure_classified_witness :
    exStopped.recordedBlob = some [1, 2, 3] ∧
    isFailureOutcome
      (.httpFailure 400 "Bad Request" (some (some "File must be an audio file"))) = true ∧
    ((uploadAndTranscribe exStopped
        (.httpFailure 400 "Bad Request" (some (some "File must be an audio file"))) true).1.error =
      some (classifyError (errMsgOfOutcome
        (.httpFailure 400 "Bad Request" (some (some "File must be an audio file"))))) ∧
     ((strIncludes (errMsgOfOutcome
          (.httpFailure 400 "Bad Request" (some (some "File must be an audio file"))))
          "Failed to fetch" = true ∧
        classifyError (errMsgOfOutcome
          (.httpFailure 400 "Bad Request" (some (some "File must be an audio file")))) =
          cannotConnectMsg) ∨
      (strIncludes (errMsgOfOutcome
          (.httpFailure 400 "Bad Request" (some (some "File must be an audio file"))))
          "Failed to fetch" = false ∧
        strIncludes (errMsgOfOutcome
          (.httpFailure 400 "Bad Request" (some (some "File must be an audio file"))))
          "File must be an audio file" = true ∧
        classifyError (errMsgOfOutcome
          (.httpFailure 400 "Bad Request" (some (some "File must be an audio file")))) =
          invalidFormatMsg) ∨
      (strIncludes (errMsgOfOutcome
          (.httpFailure 400 "Bad Request" (some (some "File must be an audio file"))))
          "Failed to fetch" = false ∧
        strIncludes (errMsgOfOutcome
          (.httpFailure 400 "Bad Request" (some (some "File must be an audio file"))))
          "File must be an audio file" = false ∧
        strIncludes (errMsgOfOutcome
          (.httpFailure 400 "Bad Request" (some (some "File must be an audio file"))))
          "Transcription failed" = true ∧
        classifyError (errMsgOfOutcome
          (.httpFailure 400 "Bad Request" (some (some "File must be an audio file")))) =
          deepgramFailedMsg) ∨
      (strIncludes (errMsgOfOutcome
          (.httpFailure 400 "Bad Request" (some (some "File must be an audio file"))))
          "Failed to fetch" = false ∧
        strIncludes (errMsgOfOutcome
          (.httpFailure 400 "Bad Request" (some (some "File must be an audio file"))))
          "File must be an audio file" = false ∧
        strIncludes (errMsgOfOutcome
          (.httpFailure 400 "Bad Request" (some (some "File must be an audio file"))))
          "Transcription failed" = false ∧
        classifyError (errMsgOfOutcome
          (.httpFailure 400 "Bad Request" (some (some "File must be an audio file")))) =
          "Transcription failed: " ++ errMsgOfOutcome
            (.httpFailure 400 "Bad Request" (some (some "File must be an audio file")))))) :=
  ⟨rfl, rfl, upload_failure_classified exStopped
    (.httpFailure 400 "Bad Request" (some (some "File must be an audio file")))
    true [1, 2, 3] rfl rfl⟩

/-- Claim C8: the completion handler of `App.jsx` places the new record
(built from the result, with a null audio URL) at the head of the local
transcript list; the resulting list still contains every prior record, and
the display order (top of the rendered list) has the new record first. -/
theorem transcription_complete_prepends (ts : List Transcript)
    (r : TranscriptResult) (now : String) :
    handleTranscriptionComplete ts r now = mkNewTranscript r now :: ts ∧
    (handleTranscriptionComplete ts r now).head? = some (mkNewTranscript r now) ∧
    mkNewTranscript r now ∈ handleTranscriptionComplete ts r now ∧
    (∀ t ∈ ts, t ∈ handleTranscriptionComplete ts r now) ∧
    (handleTranscriptionComplete ts r now).length = ts.length + 1 := by
  refine ⟨rfl, rfl, List.mem_cons_self _ _, fun t ht => List.mem_cons_of_mem _ ht, ?_⟩
  simp [handleTranscriptionComplete]

/-- Claim C8 witness: the handler at a concrete one-element list. -/
theorem transcription_complete_prepends_witness :
    handleTranscriptionComplete [⟨1, some "old", "completed", "t0", none⟩]
        ⟨2, some "new", "completed"⟩ "t1" =
      mkNewTranscript ⟨2, some "new", "completed"⟩ "t1" ::
        [⟨1, some "old", "completed", "t0", none⟩] ∧
    (handleTranscriptionComplete [⟨1, some "old", "completed", "t0", none⟩]
        ⟨2, some "new", "completed"⟩ "t1").head? =
      some (mkNewTranscript ⟨2, some "new", "completed"⟩ "t1") ∧
    mkNewTranscript ⟨2, some "new", "completed"⟩ "t1" ∈
      handleTranscriptionComplete [⟨1, some "old", "completed", "t0", none⟩]
        ⟨2, some "new", "completed"⟩ "t1" ∧
    (∀ t ∈ [(⟨1, some "old", "completed", "t0", none⟩ : Transcript)],
      t ∈ handleTranscriptionComplete [⟨1, some "old", "completed", "t0", none⟩]
        ⟨2, some "new", "completed"⟩ "t1") ∧
    (handleTranscriptionComplete [⟨1, some "old", "completed", "t0", none⟩]
        ⟨2, some "new", "completed"⟩ "t1").length =
      [(⟨1, some "old", "completed", "t0", none⟩ : Transcript)].length + 1 :=
  transcription_complete_prepends [⟨1, some "old", "completed", "t0", none⟩]
    ⟨2, some "new", "completed"⟩ "t1"

/-- Claim C10: an upload that actually starts a request passes through the
`uploadBegin` state, in which the processing flag is up, and on every
outcome — success, transport error, HTTP failure, or body-parse failure —
the `finally` clause leaves the final state with the processing flag
down. -/
theorem upload_processing_flag_lifecycle (s : RecorderState) (o : UploadOutcome)
    (cb : Bool) (b : List Nat) (hb : s.recordedBlob = some b) :
    uploadAndTranscribe s o cb = uploadSettle (uploadBegin s) b o cb ∧
    (uploadBegin s).isProcessing = true ∧
    (uploadAndTranscribe s o cb).1.isProcessing = false := by
  refine ⟨by simp [uploadAndTranscribe, hb], rfl, ?_⟩
  cases o <;> simp [uploadAndTranscribe, hb, uploadSettle, uploadBegin]

/-- Claim C10 witness: the processing-flag lifecycle at the stopped state
under a provider-failure response. -/
theorem upload_processing_flag_lifecycle_witness :
    exStopped.recordedBlob = some [1, 2, 3] ∧
    (uploadAndTranscribe exStopped
        (.httpFailure 500 "Internal Server Error" (some (some "Transcription failed"))) false =
      uploadSettle (uploadBegin exStopped) [1, 2, 3]
        (.httpFailure 500 "Internal Server Error" (some (some "Transcription failed"))) false ∧
     (uploadBegin exStopped).isProcessing = true ∧
     (uploadAndTranscribe exStopped
        (.httpFailure 500 "Internal Server Error" (some (some "Transcription failed"))) false).1.isProcessing =
       false) :=
  ⟨rfl, upload_processing_flag_lifecycle exStopped
    (.httpFailure 500 "Internal Server Error" (some (some "Transcription failed")))
    false [1, 2, 3] rfl⟩

end SpeechApp
